import Mathlib

/-!
Verification of the gameplay core of the Key Dash Adventure repository:
the level table (frontend/src/config/levels.ts), the game-state container
(frontend/src/core/GameState.ts) and the spawn decision of the game scene.
TypeScript numbers that only ever hold integers are modelled as Int;
spawn probabilities (decimal literals) are modelled as exact rationals.
-/

namespace KeyDash

/-- Embedding of the LevelConfig record of frontend/src/config/levels.ts. -/
structure LevelConfig where
  level : Int
  requiredScore : Int
  obstacleSpawnInterval : Int
  obstacleSpeed : Int
  coinSpawnInterval : Int
  coinSpeed : Int
  obstacleSpawnChance : ℚ
  coinSpawnChance : ℚ
deriving DecidableEq, Repr

/-- Embedding of the LEVELS table of frontend/src/config/levels.ts, in order. -/
def LEVELS : List LevelConfig := [
  { level := 1, requiredScore := 0, obstacleSpawnInterval := 2000,
    obstacleSpeed := 100, coinSpawnInterval := 3000, coinSpeed := 80,
    obstacleSpawnChance := 0.7, coinSpawnChance := 0.8 },
  { level := 2, requiredScore := 50, obstacleSpawnInterval := 1800,
    obstacleSpeed := 120, coinSpawnInterval := 2800, coinSpeed := 90,
    obstacleSpawnChance := 0.75, coinSpawnChance := 0.75 },
  { level := 3, requiredScore := 150, obstacleSpawnInterval := 1600,
    obstacleSpeed := 140, coinSpawnInterval := 2600, coinSpeed := 100,
    obstacleSpawnChance := 0.8, coinSpawnChance := 0.7 },
  { level := 4, requiredScore := 300, obstacleSpawnInterval := 1400,
    obstacleSpeed := 160, coinSpawnInterval := 2400, coinSpeed := 110,
    obstacleSpawnChance := 0.85, coinSpawnChance := 0.65 },
  { level := 5, requiredScore := 500, obstacleSpawnInterval := 1200,
    obstacleSpeed := 180, coinSpawnInterval := 2200, coinSpeed := 120,
    obstacleSpawnChance := 0.9, coinSpawnChance := 0.6 },
  { level := 6, requiredScore := 750, obstacleSpawnInterval := 1000,
    obstacleSpeed := 200, coinSpawnInterval := 2000, coinSpeed := 130,
    obstacleSpawnChance := 0.92, coinSpawnChance := 0.55 },
  { level := 7, requiredScore := 1000, obstacleSpawnInterval := 900,
    obstacleSpeed := 220, coinSpawnInterval := 1900, coinSpeed := 140,
    obstacleSpawnChance := 0.94, coinSpawnChance := 0.5 },
  { level := 8, requiredScore := 1500, obstacleSpawnInterval := 800,
    obstacleSpeed := 240, coinSpawnInterval := 1800, coinSpeed := 150,
    obstacleSpawnChance := 0.95, coinSpawnChance := 0.45 }]

/-- JavaScript array indexing: xs[i] is undefined (here none) when i is
negative or at least the length of the array. -/
def jsIndex {α : Type} (xs : List α) (i : Int) : Option α :=
  if i < 0 then none else xs.get? i.toNat

/-- Embedding of getLevelConfig of frontend/src/config/levels.ts.
When level exceeds LEVELS.length the source builds an extrapolated record
from the last entry; otherwise it returns LEVELS[level - 1], which in
JavaScript is undefined when level - 1 is out of bounds. -/
def getLevelConfig (level : Int) : Option LevelConfig :=
  if level > (LEVELS.length : Int) then
    let lastLevel := LEVELS.getLastD
      { level := 0, requiredScore := 0, obstacleSpawnInterval := 0,
        obstacleSpeed := 0, coinSpawnInterval := 0, coinSpeed := 0,
        obstacleSpawnChance := 0, coinSpawnChance := 0 }
    some { lastLevel with
      level := level,
      requiredScore := lastLevel.requiredScore + (level - LEVELS.length) * 500,
      obstacleSpawnInterval :=
        max 500 (lastLevel.obstacleSpawnInterval - (level - LEVELS.length) * 50),
      obstacleSpeed := lastLevel.obstacleSpeed + (level - LEVELS.length) * 20,
      obstacleSpawnChance :=
        min 0.98 (lastLevel.obstacleSpawnChance + (level - LEVELS.length) * 0.01) }
  else
    jsIndex LEVELS (level - 1)

/-- Embedding of getLevelForScore of frontend/src/config/levels.ts: the loop
runs from the last table entry down to the first and returns the first level
whose requiredScore is at most the score, or 1 when none qualifies. -/
def getLevelForScore (score : Int) : Int :=
  match LEVELS.reverse.find? (fun cfg => cfg.requiredScore ≤ score) with
  | some cfg => cfg.level
  | none => 1

/-- Events emitted on the event bus by GameState (core/Events.ts names). -/
inductive GameEvent
  | scoreChanged (score : Int)
  | levelChanged (level : Int)
  | gamePaused
  | gameResumed
  | gameOverFired (score bestScore : Int)
deriving DecidableEq, Repr

/-- Embedding of the mutable fields of the GameState class of
frontend/src/core/GameState.ts. -/
structure GameState where
  score : Int
  level : Int
  bestScoreValue : Int
  paused : Bool
  hasGameEnded : Bool
deriving DecidableEq, Repr

/-- A GameState together with the durable-store entry under its best-score
key. Writes and removals are modelled as succeeding; in the source a failing
localStorage call is caught and only logged. -/
structure World where
  gs : GameState
  storage : Option String
deriving DecidableEq, Repr

/-- Value of a decimal digit run, most significant first. -/
def digitsToNat (ds : List Char) : Nat :=
  ds.foldl (fun acc c => acc * 10 + (c.toNat - 48)) 0

/-- Leading decimal digits of a character list; none when the list does not
start with a digit (parseInt would give NaN). -/
def leadingDigits (cs : List Char) : Option Nat :=
  let ds := cs.takeWhile Char.isDigit
  if ds.isEmpty then none else some (digitsToNat ds)

/-- Whitespace characters that parseInt skips at the front of its input. -/
def isJsWhitespace (c : Char) : Bool :=
  c = ' ' || c = '\t' || c = '\n' || c = '\r'

/-- Model of JavaScript parseInt(s, 10): skip leading whitespace, read an
optional sign and then the longest run of leading decimal digits; the result
is none (NaN) when no digit follows. -/
def parseIntBase10 (s : String) : Option Int :=
  match s.data.dropWhile isJsWhitespace with
  | '-' :: rest => (leadingDigits rest).map (fun n => -(n : Int))
  | '+' :: rest => (leadingDigits rest).map (fun n => (n : Int))
  | cs => (leadingDigits cs).map (fun n => (n : Int))

/-- Outcome of reading the best-score key from the durable store: the read
either throws or yields the stored string, when present. -/
inductive StorageRead
  | failure
  | value (stored : Option String)
deriving DecidableEq, Repr

/-- Embedding of GameState.loadBestScore: a read failure gives 0; otherwise
parsed is parseInt(stored, 10) when stored is truthy (a non-empty string)
and 0 when missing or empty, and a NaN parse falls back to 0. -/
def loadBestScore : StorageRead → Int
  | .failure => 0
  | .value stored =>
      let parsed : Option Int :=
        match stored with
        | some s => if s.data.isEmpty then some 0 else parseIntBase10 s
        | none => some 0
      parsed.getD 0

/-- Embedding of the GameState constructor: field initializers followed by
loadBestScore on the given read outcome. -/
def mkGameState (read : StorageRead) : GameState :=
  { score := 0, level := 1, bestScoreValue := loadBestScore read,
    paused := false, hasGameEnded := false }

/-- A world whose construction saw the given storage-read outcome and whose
store holds the given entry. -/
def mkWorld (read : StorageRead) (entry : Option String) : World :=
  { gs := mkGameState read, storage := entry }

/-- Embedding of GameState.saveBestScore: write the best score, as a string,
under the best-score key. -/
def saveBestScore (w : World) : World :=
  { w with storage := some (toString w.gs.bestScoreValue) }

/-- Embedding of GameState.updateBestScoreFromCurrent. -/
def updateBestScoreFromCurrent (w : World) : World :=
  if w.gs.score > w.gs.bestScoreValue then
    saveBestScore { w with gs := { w.gs with bestScoreValue := w.gs.score } }
  else w

/-- Embedding of GameState.addScore. -/
def addScore (points : Int) (w : World) : World × List GameEvent :=
  let w1 := { w with gs := { w.gs with score := w.gs.score + points } }
  let w2 := updateBestScoreFromCurrent w1
  (w2, [.scoreChanged w2.gs.score])

/-- Embedding of GameState.setScore. -/
def setScore (score : Int) (w : World) : World × List GameEvent :=
  let w1 := { w with gs := { w.gs with score := score } }
  let w2 := updateBestScoreFromCurrent w1
  (w2, [.scoreChanged w2.gs.score])

/-- Embedding of GameState.setLevel. -/
def setLevel (level : Int) (w : World) : World × List GameEvent :=
  ({ w with gs := { w.gs with level := level } }, [.levelChanged level])

/-- Embedding of GameState.nextLevel. -/
def nextLevel (w : World) : World × List GameEvent :=
  setLevel (w.gs.level + 1) w

/-- Embedding of GameState.togglePause. -/
def togglePause (w : World) : World × List GameEvent :=
  let w1 := { w with gs := { w.gs with paused := !w.gs.paused } }
  (w1, [if w1.gs.paused then .gamePaused else .gameResumed])

/-- Embedding of GameState.gameOver: a no-op once ended, otherwise sets the
ended and paused flags, reconciles the best score and emits game-over. -/
def gameOver (w : World) : World × List GameEvent :=
  if w.gs.hasGameEnded then (w, [])
  else
    let w1 := { w with gs := { w.gs with hasGameEnded := true, paused := true } }
    let w2 := updateBestScoreFromCurrent w1
    (w2, [.gameOverFired w2.gs.score w2.gs.bestScoreValue])

/-- Embedding of GameState.initialize (default startingLevel is 1 at the
source call sites). -/
def initializeGame (startingLevel : Int) (w : World) : World :=
  { w with gs :=
      { w.gs with
        score := 0, level := startingLevel,
        paused := false, hasGameEnded := false } }

/-- Embedding of GameState.reset: initialize, then optionally zero the best
score and remove its durable entry. -/
def reset (clearBestScore : Bool) (w : World) : World :=
  let w1 := initializeGame 1 w
  if clearBestScore then
    { w1 with gs := { w1.gs with bestScoreValue := 0 }, storage := none }
  else w1

/-- The GameState mutators other than initialize and reset, as one type. -/
inductive Op
  | opAddScore (points : Int)
  | opSetScore (score : Int)
  | opSetLevel (level : Int)
  | opNextLevel
  | opTogglePause
  | opGameOver
deriving DecidableEq, Repr

/-- State reached by one mutator call, events dropped. -/
def applyOp (o : Op) (w : World) : World :=
  match o with
  | .opAddScore p => (addScore p w).1
  | .opSetScore s => (setScore s w).1
  | .opSetLevel l => (setLevel l w).1
  | .opNextLevel => (nextLevel w).1
  | .opTogglePause => (togglePause w).1
  | .opGameOver => (gameOver w).1

/-- State reached by a sequence of mutator calls, in order. -/
def applyOps (ops : List Op) (w : World) : World :=
  ops.foldl (fun w o => applyOp o w) w

/-- State reached by a sequence of addScore calls, in order. -/
def applyAddScores (ps : List Int) (w : World) : World :=
  ps.foldl (fun w p => (addScore p w).1) w

/-- State and concatenated event trace of n consecutive gameOver calls. -/
def gameOverTimes : Nat → World → World × List GameEvent
  | 0, w => (w, [])
  | n + 1, w =>
      let r1 := gameOver w
      let r2 := gameOverTimes n r1.1
      (r2.1, r1.2 ++ r2.2)

/-- A fresh world with no stored best score. -/
def freshWorld : World := mkWorld (.value none) none

/-- Kind of a falling entity created by the game scene. -/
inductive EntityKind
  | obstacle
  | coin
deriving DecidableEq, Repr

/-- A falling entity as constructed by the game scene: a position and the
fall speed passed to the Obstacle or Coin constructor. -/
structure Entity where
  kind : EntityKind
  x : Int
  y : Int
  speed : Int
deriving DecidableEq, Repr

/-- Model of Phaser.Math.Between(lo, hi): floor of r * (hi - lo + 1) + lo,
where r is the uniform draw of Math.random in [0, 1). -/
def phaserBetween (lo hi : Int) (r : ℚ) : Int :=
  ⌊r * ((hi : ℚ) - (lo : ℚ) + 1) + (lo : ℚ)⌋

/-- Embedding of GameScene.spawnObstacle and GameScene.spawnCoin of the game
scene (the two bodies are identical up to the entity class): no entity while
paused, no entity when the uniform draw exceeds the spawn chance, otherwise
one entity at a random x in [50, width - 50], at y = -50, with the given
speed. The random draws (draw for the spawn decision, r for the x position)
are injected as arguments. -/
def spawnEntity (kind : EntityKind) (paused : Bool) (draw chance : ℚ)
    (r : ℚ) (width : Int) (speed : Int) : Option Entity :=
  if paused then none
  else if draw > chance then none
  else some { kind := kind, x := phaserBetween 50 (width - 50) r,
              y := -50, speed := speed }

/-- GameScene.spawnObstacle. -/
def spawnObstacle (paused : Bool) (draw chance r : ℚ) (width speed : Int) :
    Option Entity :=
  spawnEntity .obstacle paused draw chance r width speed

/-- GameScene.spawnCoin. -/
def spawnCoin (paused : Bool) (draw chance r : ℚ) (width speed : Int) :
    Option Entity :=
  spawnEntity .coin paused draw chance r width speed

/-- Statement of the claimed contract of getLevelForScore in the words of
the specification: n is a level of the table whose threshold score has been
reached (or the default 1 when no threshold is reached), and no reached
level of the table lies above n. -/
def isHighestLevelForScore (score n : Int) : Prop :=
  ((∃ cfg ∈ LEVELS, cfg.requiredScore ≤ score ∧ cfg.level = n) ∨
      (n = 1 ∧ ∀ cfg ∈ LEVELS, ¬ cfg.requiredScore ≤ score)) ∧
    ∀ cfg ∈ LEVELS, cfg.requiredScore ≤ score → cfg.level ≤ n

set_option maxHeartbeats 1600000 in
/-- Closed form of getLevelForScore over the concrete table. -/
lemma getLevelForScore_eq (s : Int) :
    getLevelForScore s =
      if 1500 ≤ s then 8 else if 1000 ≤ s then 7 else if 750 ≤ s then 6
      else if 500 ≤ s then 5 else if 300 ≤ s then 4 else if 150 ≤ s then 3
      else if 50 ≤ s then 2 else if 0 ≤ s then 1 else 1 := by
  unfold getLevelForScore LEVELS
  split_ifs with h1 h2 h3 h4 h5 h6 h7 h8 <;>
    simp_all [List.find?, List.reverse, List.reverseAux, -not_le]

set_option maxHeartbeats 3200000 in
/-- Result of getLevelForScore satisfies the highest-reached-level contract. -/
lemma getLevelForScore_isHighest (s : Int) :
    isHighestLevelForScore s (getLevelForScore s) := by
  rw [getLevelForScore_eq]
  unfold isHighestLevelForScore
  split_ifs with h1 h2 h3 h4 h5 h6 h7 h8 <;>
    simp [LEVELS] <;> omega

set_option maxHeartbeats 1600000 in
/-- Monotone non-decreasing behavior of getLevelForScore. -/
lemma getLevelForScore_mono {s1 s2 : Int} (h : s1 ≤ s2) :
    getLevelForScore s1 ≤ getLevelForScore s2 := by
  rw [getLevelForScore_eq, getLevelForScore_eq]
  split_ifs <;> omega

/-- State reached by addScore: the score moves by points and the best score
becomes the maximum of the old best score and the new score. -/
lemma addScore_state (w : World) (p : Int) :
    (addScore p w).1.gs.score = w.gs.score + p ∧
      (addScore p w).1.gs.bestScoreValue
        = max w.gs.bestScoreValue (w.gs.score + p) := by
  unfold addScore updateBestScoreFromCurrent saveBestScore
  dsimp
  split_ifs with h
  · refine ⟨rfl, ?_⟩
    show w.gs.score + p = max w.gs.bestScoreValue (w.gs.score + p)
    rw [max_eq_right (by omega)]
  · refine ⟨rfl, ?_⟩
    show w.gs.bestScoreValue = max w.gs.bestScoreValue (w.gs.score + p)
    rw [max_eq_left (by omega)]

/-- Events of addScore: one score-changed event carrying the new score. -/
lemma addScore_events (w : World) (p : Int) :
    (addScore p w).2 = [GameEvent.scoreChanged (w.gs.score + p)] := by
  unfold addScore updateBestScoreFromCurrent saveBestScore
  dsimp
  split_ifs with h <;> rfl

/-- The best score never decreases across one addScore call. -/
lemma addScore_best_mono (w : World) (p : Int) :
    w.gs.bestScoreValue ≤ (addScore p w).1.gs.bestScoreValue := by
  rw [(addScore_state w p).2]
  exact le_max_left _ _

/-- The best score never decreases across a sequence of addScore calls. -/
lemma applyAddScores_best_mono (ps : List Int) (w : World) :
    w.gs.bestScoreValue ≤ (applyAddScores ps w).gs.bestScoreValue := by
  induction ps generalizing w with
  | nil => exact le_refl _
  | cons p ps ih =>
      exact le_trans (addScore_best_mono w p) (ih (addScore p w).1)

/-- Once the run has ended, gameOver returns the state unchanged with no
events. -/
lemma gameOver_of_ended {w : World} (h : w.gs.hasGameEnded = true) :
    gameOver w = (w, []) := by
  unfold gameOver
  rw [if_pos h]

/-- Every mutator except gameOver leaves the ended flag alone, and gameOver
only ever sets it; so a true ended flag survives any mutator call. -/
lemma applyOp_preserves_ended (o : Op) (w : World)
    (h : w.gs.hasGameEnded = true) :
    (applyOp o w).gs.hasGameEnded = true := by
  cases o with
  | opAddScore p =>
      unfold applyOp addScore updateBestScoreFromCurrent saveBestScore
      dsimp
      split_ifs <;> exact h
  | opSetScore s =>
      unfold applyOp setScore updateBestScoreFromCurrent saveBestScore
      dsimp
      split_ifs <;> exact h
  | opSetLevel l => exact h
  | opNextLevel => exact h
  | opTogglePause => exact h
  | opGameOver =>
      unfold applyOp
      rw [gameOver_of_ended h]
      exact h

/-- First call of gameOver on a live run: flags set, score kept, best score
reconciled, and a single game-over event with the final score and best. -/
lemma gameOver_run {w : World} (h : w.gs.hasGameEnded = false) :
    (gameOver w).1.gs.hasGameEnded = true
      ∧ (gameOver w).1.gs.paused = true
      ∧ (gameOver w).1.gs.score = w.gs.score
      ∧ (gameOver w).1.gs.bestScoreValue = max w.gs.bestScoreValue w.gs.score
      ∧ (gameOver w).2
          = [GameEvent.gameOverFired w.gs.score
              (max w.gs.bestScoreValue w.gs.score)] := by
  unfold gameOver updateBestScoreFromCurrent saveBestScore
  rw [if_neg (by simp [h])]
  dsimp
  split_ifs with hbest
  · refine ⟨rfl, rfl, rfl, ?_, ?_⟩
    · show w.gs.score = max w.gs.bestScoreValue w.gs.score
      rw [max_eq_right (by omega)]
    · show [GameEvent.gameOverFired w.gs.score w.gs.score]
          = [GameEvent.gameOverFired w.gs.score
              (max w.gs.bestScoreValue w.gs.score)]
      rw [max_eq_right (by omega)]
  · refine ⟨rfl, rfl, rfl, ?_, ?_⟩
    · show w.gs.bestScoreValue = max w.gs.bestScoreValue w.gs.score
      rw [max_eq_left (by omega)]
    · show [GameEvent.gameOverFired w.gs.score w.gs.bestScoreValue]
          = [GameEvent.gameOverFired w.gs.score
              (max w.gs.bestScoreValue w.gs.score)]
      rw [max_eq_left (by omega)]

/-- Iterating gameOver on an already-ended run changes nothing and emits
nothing. -/
lemma gameOverTimes_of_ended (n : Nat) {w : World}
    (h : w.gs.hasGameEnded = true) :
    gameOverTimes n w = (w, []) := by
  induction n with
  | zero => rfl
  | succ m ih =>
      show (let r1 := gameOver w
            let r2 := gameOverTimes m r1.1
            ((r2.1, r1.2 ++ r2.2) : World × List GameEvent)) = (w, [])
      rw [gameOver_of_ended h]
      dsimp
      rw [ih]

/-- Bounds of the Phaser.Math.Between model: for a draw in [0, 1) the result
lies in [lo, hi]. -/
lemma phaserBetween_bounds {lo hi : Int} {r : ℚ} (h0 : 0 ≤ r) (h1 : r < 1)
    (hlh : lo ≤ hi) :
    lo ≤ phaserBetween lo hi r ∧ phaserBetween lo hi r ≤ hi := by
  unfold phaserBetween
  have hq : (lo : ℚ) ≤ (hi : ℚ) := by exact_mod_cast hlh
  have hlen : (0 : ℚ) < (hi : ℚ) - (lo : ℚ) + 1 := by linarith
  constructor
  · rw [Int.le_floor]
    nlinarith [mul_nonneg h0 hlen.le]
  · have hlt : ⌊r * ((hi : ℚ) - (lo : ℚ) + 1) + (lo : ℚ)⌋ < hi + 1 := by
      rw [Int.floor_lt]
      push_cast
      nlinarith [mul_pos (by linarith : (0 : ℚ) < 1 - r) hlen]
    omega

/-- Closed form of getLevelConfig above the table: the extrapolated record. -/
lemma getLevelConfig_gt8 (n : Int) (h : 8 < n) :
    getLevelConfig n = some {
      level := n,
      requiredScore := 1500 + (n - 8) * 500,
      obstacleSpawnInterval := max 500 (800 - (n - 8) * 50),
      obstacleSpeed := 240 + (n - 8) * 20,
      coinSpawnInterval := 1800,
      coinSpeed := 150,
      obstacleSpawnChance := min 0.98 (0.95 + (n - 8) * 0.01),
      coinSpawnChance := 0.45 } := by
  have hlen : (LEVELS.length : Int) = 8 := by decide
  unfold getLevelConfig
  rw [hlen, if_pos (by omega)]
  rfl

/-- The option holds a tier that is one of the rows of the LEVELS table. -/
def isDefinedTier (o : Option LevelConfig) : Prop :=
  match o with
  | some cfg => cfg ∈ LEVELS
  | none => False

instance : ∀ o : Option LevelConfig, Decidable (isDefinedTier o)
  | some cfg => inferInstanceAs (Decidable (cfg ∈ LEVELS))
  | none => inferInstanceAs (Decidable False)

/-- The option holds a tier whose obstacle spawn interval is at least 500. -/
def obstacleIntervalAtLeast500 (o : Option LevelConfig) : Prop :=
  match o with
  | some cfg => 500 ≤ cfg.obstacleSpawnInterval
  | none => False

/-- C1: after every addScore call the best score equals the maximum of the
best score before the call and the score after the call; the best score
never decreases across any sequence of addScore calls; and from a fresh
GameState with no stored best score, addScore 10 gives score 10 and best
score 10 with a score-changed payload of 10, after which addScore (-5)
gives score 5 while the best score stays 10. -/
theorem C1_addScore_best_is_max :
    (∀ (w : World) (p : Int),
        (addScore p w).1.gs.bestScoreValue
          = max w.gs.bestScoreValue (addScore p w).1.gs.score)
      ∧ (∀ (w : World) (ps : List Int),
          w.gs.bestScoreValue ≤ (applyAddScores ps w).gs.bestScoreValue)
      ∧ ((addScore 10 freshWorld).1.gs.score = 10
          ∧ (addScore 10 freshWorld).1.gs.bestScoreValue = 10
          ∧ (addScore 10 freshWorld).2 = [GameEvent.scoreChanged 10]
          ∧ (addScore (-5) (addScore 10 freshWorld).1).1.gs.score = 5
          ∧ (addScore (-5) (addScore 10 freshWorld).1).1.gs.bestScoreValue
              = 10) := by
  refine ⟨?_, ?_, by decide⟩
  · intro w p
    obtain ⟨hs, hb⟩ := addScore_state w p
    rw [hb, hs]
  · intro w ps
    exact applyAddScores_best_mono ps w

/-- C2: calling gameOver n > 1 times consecutively from a non-ended state
emits the game-over event exactly once, with the final score and best score
as payload; the state after all n calls equals the state after the first
call, with ended and paused both true. -/
theorem C2_gameOver_once (n : Nat) (w : World) (hn : 1 < n)
    (h : w.gs.hasGameEnded = false) :
    (gameOverTimes n w).2
        = [GameEvent.gameOverFired w.gs.score
            (max w.gs.bestScoreValue w.gs.score)]
      ∧ (gameOverTimes n w).1 = (gameOver w).1
      ∧ (gameOverTimes n w).1.gs.hasGameEnded = true
      ∧ (gameOverTimes n w).1.gs.paused = true := by
  obtain ⟨m, rfl⟩ : ∃ m, n = m + 1 := ⟨n - 1, by omega⟩
  obtain ⟨he, hp, hs, hb, hev⟩ := gameOver_run h
  have hstep : gameOverTimes (m + 1) w
      = ((gameOverTimes m (gameOver w).1).1,
          (gameOver w).2 ++ (gameOverTimes m (gameOver w).1).2) := rfl
  rw [hstep, gameOverTimes_of_ended m he]
  exact ⟨by simp [hev], rfl, he, hp⟩

/-- C2 witness: two consecutive gameOver calls on a fresh world emit one
game-over event and leave the ended and paused flags set. -/
theorem C2_witness :
    (gameOverTimes 2 freshWorld).2
        = [GameEvent.gameOverFired freshWorld.gs.score
            (max freshWorld.gs.bestScoreValue freshWorld.gs.score)]
      ∧ (gameOverTimes 2 freshWorld).1 = (gameOver freshWorld).1
      ∧ (gameOverTimes 2 freshWorld).1.gs.hasGameEnded = true
      ∧ (gameOverTimes 2 freshWorld).1.gs.paused = true :=
  C2_gameOver_once 2 freshWorld (by decide) (by decide)

/-- C3 counterexample: getLevelConfig does not clamp. Below the table,
getLevelConfig (-10) differs from getLevelConfig 1 (the lookup is out of
bounds and yields no tier), and above the table, getLevelConfig 999 differs
from the tier of the last defined level (which getLevelConfig 8 returns),
because the result is extrapolated. -/
theorem C3_counterexample :
    getLevelConfig (-10) ≠ getLevelConfig 1
      ∧ getLevelConfig 999 ≠ getLevelConfig 8 := by decide

/-- C3 amended: getLevelConfig clamps at neither end. For n below 1 the
table lookup is out of bounds and yields no tier; for 1 ≤ n ≤ 8 it returns
the defined tier for n, a row of the table; for n > 8 it returns an
extrapolated tier whose level field is n, not the last defined tier; no
input is an error (every input yields a defined option value). -/
theorem C3_no_clamping (n : Int) :
    (n ≤ 0 → getLevelConfig n = none)
      ∧ (1 ≤ n → n ≤ 8 →
          (getLevelConfig n).map LevelConfig.level = some n
            ∧ isDefinedTier (getLevelConfig n))
      ∧ (8 < n → (getLevelConfig n).map LevelConfig.level = some n) := by
  have hlen : (LEVELS.length : Int) = 8 := by decide
  refine ⟨?_, ?_, ?_⟩
  · intro h
    unfold getLevelConfig
    rw [hlen, if_neg (by omega)]
    unfold jsIndex
    rw [if_pos (by omega)]
  · intro h1 h8
    interval_cases n <;>
      exact ⟨by decide, by norm_num [isDefinedTier, getLevelConfig, jsIndex, LEVELS]⟩
  · intro h
    rw [getLevelConfig_gt8 n h]
    rfl

/-- C3 witness: the amended statement at the inputs -10, 3 and 999. -/
theorem C3_witness :
    getLevelConfig (-10) = none
      ∧ ((getLevelConfig 3).map LevelConfig.level = some 3
          ∧ isDefinedTier (getLevelConfig 3))
      ∧ (getLevelConfig 999).map LevelConfig.level = some 999 :=
  ⟨(C3_no_clamping (-10)).1 (by decide),
    (C3_no_clamping 3).2.1 (by decide) (by decide),
    (C3_no_clamping 999).2.2 (by decide)⟩

/-- C4 counterexample: with the level table of the program, whose
thresholds are 0, 50, 150, 300, 500, 750, 1000, 1500, it is not the case
that getLevelForScore 149 is 1 and getLevelForScore 150 is 2. -/
theorem C4_counterexample :
    ¬ (getLevelForScore 149 = 1 ∧ getLevelForScore 150 = 2) := by decide

/-- C4 amended: with the level table of the program, getLevelForScore 149
returns 2 (threshold 50 reached, 150 not) and getLevelForScore 150 returns
3 (threshold 150 reached). -/
theorem C4_levels_at_149_150 :
    getLevelForScore 149 = 2 ∧ getLevelForScore 150 = 3 := by decide

/-- C5: getLevelForScore returns the highest level number of the table whose
score threshold is at most the given score, defaulting to level 1 when the
score is below every threshold, and is monotonic non-decreasing. -/
theorem C5_highest_and_monotone :
    (∀ s : Int, isHighestLevelForScore s (getLevelForScore s))
      ∧ ∀ s1 s2 : Int, s1 ≤ s2 → getLevelForScore s1 ≤ getLevelForScore s2 :=
  ⟨getLevelForScore_isHighest, fun _ _ h => getLevelForScore_mono h⟩

/-- C5 witness: the contract at score 100 and monotonicity from 100 to 200. -/
theorem C5_witness :
    isHighestLevelForScore 100 (getLevelForScore 100)
      ∧ getLevelForScore 100 ≤ getLevelForScore 200 :=
  ⟨C5_highest_and_monotone.1 100,
    C5_highest_and_monotone.2 100 200 (by decide)⟩

/-- C6: initializeGame sets score to 0, level to the given starting level,
paused and ended to false, and leaves the best score and its durable entry
unchanged, whatever the prior state; reset with clearBestScore additionally
zeroes the best score and removes the durable entry. -/
theorem C6_initialize_and_reset :
    (∀ (w : World) (startingLevel : Int),
        (initializeGame startingLevel w).gs.score = 0
          ∧ (initializeGame startingLevel w).gs.level = startingLevel
          ∧ (initializeGame startingLevel w).gs.paused = false
          ∧ (initializeGame startingLevel w).gs.hasGameEnded = false
          ∧ (initializeGame startingLevel w).gs.bestScoreValue
              = w.gs.bestScoreValue
          ∧ (initializeGame startingLevel w).storage = w.storage)
      ∧ ∀ w : World,
          (reset true w).gs.score = 0
            ∧ (reset true w).gs.level = 1
            ∧ (reset true w).gs.paused = false
            ∧ (reset true w).gs.hasGameEnded = false
            ∧ (reset true w).gs.bestScoreValue = 0
            ∧ (reset true w).storage = none := by
  constructor
  · intro w startingLevel
    exact ⟨rfl, rfl, rfl, rfl, rfl, rfl⟩
  · intro w
    exact ⟨rfl, rfl, rfl, rfl, rfl, rfl⟩

/-- C7: once the ended flag is true it stays true under every sequence of
addScore, setScore, setLevel, nextLevel, togglePause and gameOver calls. -/
theorem C7_ended_stays_true (ops : List Op) (w : World)
    (h : w.gs.hasGameEnded = true) :
    (applyOps ops w).gs.hasGameEnded = true := by
  induction ops generalizing w with
  | nil => exact h
  | cons o ops ih => exact ih _ (applyOp_preserves_ended o w h)

/-- C7 witness: the invariant on a concrete ended state and sequence. -/
theorem C7_witness :
    (applyOps [Op.opAddScore 5, Op.opTogglePause, Op.opGameOver]
        (gameOver freshWorld).1).gs.hasGameEnded = true :=
  C7_ended_stays_true _ _ (by decide)

/-- C8: a spawner tick while paused creates no entity regardless of the
random draw; when not paused it creates exactly one entity of the given
kind if and only if the draw is not greater than the spawn chance, and the
created entity sits at the top edge with the given fall speed, at an x
within the horizontal bounds 50 to width - 50 whenever the position draw
lies in [0, 1) and the width is at least 100. -/
theorem C8_spawn_tick (kind : EntityKind) (paused : Bool)
    (draw chance r : ℚ) (width speed : Int) :
    (paused = true → spawnEntity kind paused draw chance r width speed = none)
      ∧ (paused = false →
          ((spawnEntity kind paused draw chance r width speed).isSome
              ↔ draw ≤ chance)
            ∧ ∀ e, spawnEntity kind paused draw chance r width speed = some e →
                e.kind = kind ∧ e.y = -50 ∧ e.speed = speed
                  ∧ (0 ≤ r → r < 1 → 100 ≤ width →
                      50 ≤ e.x ∧ e.x ≤ width - 50)) := by
  constructor
  · intro hp
    unfold spawnEntity
    rw [if_pos hp]
  · intro hp
    unfold spawnEntity
    rw [if_neg (by simp [hp])]
    constructor
    · by_cases hd : draw > chance
      · rw [if_pos hd]
        simp [not_le.mpr hd]
      · rw [if_neg hd]
        simp [not_lt.mp hd]
    · intro e he
      by_cases hd : draw > chance
      · rw [if_pos hd] at he
        exact absurd he (by simp)
      · rw [if_neg hd] at he
        cases he
        refine ⟨rfl, rfl, rfl, ?_⟩
        intro h0 h1 hw
        have hb := phaserBetween_bounds h0 h1 (by omega : (50 : Int) ≤ width - 50)
        exact hb

/-- C8 witness: a paused obstacle tick creates nothing even with a passing
draw, and an unpaused coin tick with draw below the chance creates one. -/
theorem C8_witness :
    spawnEntity EntityKind.obstacle true (1/2) (7/10) 0 800 240 = none
      ∧ ((spawnEntity EntityKind.coin false (1/2) (7/10) (1/3) 800 150).isSome
          ↔ (1/2 : ℚ) ≤ 7/10) :=
  ⟨(C8_spawn_tick EntityKind.obstacle true (1/2) (7/10) 0 800 240).1 rfl,
    ((C8_spawn_tick EntityKind.coin false (1/2) (7/10) (1/3) 800 150).2 rfl).1⟩

/-- C9: loading the persisted best score never throws. A read failure gives
a best score of 0, a missing stored value gives 0, the corrupted stored
string not-a-number gives 0, and any stored string that parses to NaN gives
0. -/
theorem C9_load_never_throws :
    loadBestScore .failure = 0
      ∧ loadBestScore (.value none) = 0
      ∧ loadBestScore (.value (some "not-a-number")) = 0
      ∧ ∀ s : String, parseIntBase10 s = none →
          loadBestScore (.value (some s)) = 0 := by
  refine ⟨rfl, rfl, by decide, ?_⟩
  intro s h
  unfold loadBestScore
  dsimp
  split_ifs with he
  · rfl
  · rw [h]
    rfl

/-- C9 witness: the general NaN case at the concrete corrupt string abc. -/
theorem C9_witness : loadBestScore (.value (some "abc")) = 0 :=
  C9_load_never_throws.2.2.2 "abc" (by decide)

/-- C10: for every level number n above the 8 defined tiers, getLevelConfig
returns an extrapolated tier: level n, required score 1500 + (n - 8) * 500,
obstacle spawn interval max 500 (800 - (n - 8) * 50) which never drops
below 500, obstacle speed 240 + (n - 8) * 20, and the coin interval 1800
and coin speed 150 of tier 8. -/
theorem C10_extrapolated_tier (n : Int) (h : 8 < n) :
    (getLevelConfig n).map LevelConfig.level = some n
      ∧ (getLevelConfig n).map LevelConfig.requiredScore
          = some (1500 + (n - 8) * 500)
      ∧ (getLevelConfig n).map LevelConfig.obstacleSpawnInterval
          = some (max 500 (800 - (n - 8) * 50))
      ∧ obstacleIntervalAtLeast500 (getLevelConfig n)
      ∧ (getLevelConfig n).map LevelConfig.obstacleSpeed
          = some (240 + (n - 8) * 20)
      ∧ (getLevelConfig n).map LevelConfig.coinSpawnInterval = some 1800
      ∧ (getLevelConfig n).map LevelConfig.coinSpeed = some 150 := by
  rw [getLevelConfig_gt8 n h]
  refine ⟨rfl, rfl, rfl, ?_, rfl, rfl, rfl⟩
  show (500 : Int) ≤ max 500 (800 - (n - 8) * 50)
  exact le_max_left _ _

/-- C10 witness: the extrapolated tier at level 999. -/
theorem C10_witness :
    (getLevelConfig 999).map LevelConfig.level = some 999
      ∧ (getLevelConfig 999).map LevelConfig.requiredScore
          = some (1500 + (999 - 8) * 500)
      ∧ (getLevelConfig 999).map LevelConfig.obstacleSpawnInterval
          = some (max 500 (800 - (999 - 8) * 50))
      ∧ obstacleIntervalAtLeast500 (getLevelConfig 999)
      ∧ (getLevelConfig 999).map LevelConfig.obstacleSpeed
          = some (240 + (999 - 8) * 20)
      ∧ (getLevelConfig 999).map LevelConfig.coinSpawnInterval = some 1800
      ∧ (getLevelConfig 999).map LevelConfig.coinSpeed = some 150 :=
  C10_extrapolated_tier 999 (by decide)

end KeyDash
